import Mathlib

/-!
Verification of the RNG provider subsystem of `src/llama-rng-provider.h`.

The C++ header defines a small class hierarchy:

* `RNGProvider`        — base class holding the provider name, a debug flag read
                         from the `LLAMA_RNG_DEBUG` environment variable at
                         construction, and an optional log file
                         (`set_output_file`, `log_value`);
* `UniformRNGProvider` — wraps a seeded `std::mt19937` and draws
                         `std::uniform_real_distribution<>(0.0, 1.0)`;
* `NormalRNGProvider`  — draws `std::normal_distribution<>(0.5, 0.15)` and
                         clamps to `[0, 1]`;
* `ExternalAPIRNGProvider` — one HTTP GET per call, parses the body as JSON,
                         requires a numeric `random` field, clamps to `[0, 1]`;
* `SerialFPGARNGProvider` — reads 4 bytes per call from a serial port, combines
                         them little-endian into a `uint32_t`, divides by
                         `0xFFFFFFFF`;
* `create_rng_provider` — the factory selecting a backend from a kind string
                         plus environment variables.

The embedding below is a shallow, executable model of this code.  Machine
integers are `Nat` with explicit `% 2 ^ 32` where 32-bit overflow matters;
`double` values are modelled as exact rationals (`ℚ`); fallible calls return
`Except String`; external effects (the wall clock, the HTTP response, the
serial byte stream, the environment) are passed in explicitly as arguments.
-/

/-- Modulus of `uint32_t` arithmetic (2^32). -/
def U32MOD : Nat := 4294967296

/-- Scale of the canonical uniform mapping of two 32-bit draws (2^64). -/
def U64MOD : Nat := 18446744073709551616

/-! ## ValueLogger: the `RNGProvider` base class state

`RNGProvider(name)` stores the name and reads `LLAMA_RNG_DEBUG` from the
environment: logging is armed iff the variable is set and equals `"1"`.
`set_output_file` closes any open file, then — only when the filename is
nonempty and debug is enabled — opens the file and writes two header comment
lines.  `log_value` appends a `timestamp,value` record iff a file is open.
The file contents are modelled as a structured list of lines; the wall clock
is an explicit argument of `log_value`. -/

/-- One line of the log file: either a `#`-prefixed header comment line, or a
`timestamp_ms,value` record line. -/
inductive LogLine where
  | header (text : String)
  | record (timestamp_ms : Nat) (value : ℚ)
deriving Repr, DecidableEq

/-- State of the `RNGProvider` base class: provider name, the
`debug_enabled` flag captured at construction, and the output file
(`none` = not open, `some lines` = open with the given contents). -/
structure RNGBase where
  name : String
  debug_enabled : Bool
  output_file : Option (List LogLine)
deriving Repr, DecidableEq

/-- The environment-variable surface the header reads via `std::getenv`. -/
structure Env where
  llama_rng_debug : Option String
  llama_rng_api_url : Option String
  llama_fpga_port : Option String
  llama_fpga_baudrate : Option String
deriving Repr, DecidableEq

/-- Constructor `RNGProvider::RNGProvider(name)`: captures the name and sets
`debug_enabled = (getenv("LLAMA_RNG_DEBUG") != nullptr && == "1")`.
No file is open initially. -/
def RNGBase.mk' (env : Env) (name : String) : RNGBase :=
  { name := name
    debug_enabled := env.llama_rng_debug = some "1"
    output_file := none }

/-- Model of `RNGProvider::set_output_file(filename)`: close any open file; if the
filename is nonempty and `debug_enabled`, open it and write the two header
comment lines.  (A successful `open` is assumed: the model has no
filesystem-permission failures.) -/
def RNGBase.set_output_file (b : RNGBase) (filename : String) : RNGBase :=
  if filename ≠ "" ∧ b.debug_enabled then
    let hdr1 := LogLine.header ("# RNG values from " ++ b.name ++ " provider")
    let hdr2 := LogLine.header "# Format: timestamp_ms,random_value"
    { b with output_file := some [hdr1, hdr2] }
  else
    { b with output_file := none }

/-- Model of `RNGProvider::log_value(value)`: iff a file is open, append one
`timestamp,value` record line, reading the wall clock (`now`, epoch ms,
passed explicitly here). -/
def RNGBase.log_value (b : RNGBase) (now : Nat) (value : ℚ) : RNGBase :=
  match b.output_file with
  | none => b
  | some lines => { b with output_file := some (lines ++ [LogLine.record now value]) }

/-! ## `std::mt19937`

The Mersenne twister engine used by the uniform and normal providers.  The
algorithm is fully specified by the C++ standard (`mersenne_twister_engine`
with the mt19937 constants); state words are `Nat` kept below `2 ^ 32` by
explicit `%`. -/

/-- State of `std::mt19937`: 624 32-bit words plus the read index. -/
structure MT where
  state : Array Nat
  idx : Nat
deriving Repr, DecidableEq

/-- State initialisation of `std::mt19937(seed)`:
`x_0 = seed`, `x_i = (1812433253 * (x_{i-1} xor (x_{i-1} >> 30)) + i) mod 2^32`. -/
def mtInit (seed : Nat) : MT :=
  let s0 : Array Nat := #[seed % U32MOD]
  let s := (List.range 623).foldl
    (fun (a : Array Nat) (j : Nat) =>
      let prev := a.getD j 0
      a.push ((1812433253 * (prev ^^^ (prev >>> 30)) + (j + 1)) % U32MOD))
    s0
  { state := s, idx := 624 }

/-- One step of the mt19937 "twist" (generation of the next state block),
updating word `i` from words `(i+1) mod 624` and `(i+397) mod 624`. -/
def mtTwistStep (a : Array Nat) (i : Nat) : Array Nat :=
  let x := ((a.getD i 0 &&& 2147483648) + (a.getD ((i + 1) % 624) 0 &&& 2147483647)) % U32MOD
  let xA := x >>> 1
  let xA := if x % 2 = 1 then xA ^^^ 2567483615 else xA
  a.set! i ((a.getD ((i + 397) % 624) 0 ^^^ xA) % U32MOD)

/-- The full mt19937 twist: regenerate all 624 state words. -/
def mtTwist (a : Array Nat) : Array Nat :=
  (List.range 624).foldl mtTwistStep a

/-- mt19937 output tempering. -/
def mtTemper (y : Nat) : Nat :=
  let y1 := (y ^^^ (y >>> 11)) % U32MOD
  let y2 := (y1 ^^^ ((y1 <<< 7) &&& 2636928640)) % U32MOD
  let y3 := (y2 ^^^ ((y2 <<< 15) &&& 4022730752)) % U32MOD
  (y3 ^^^ (y3 >>> 18)) % U32MOD

/-- Model of `std::mt19937::operator()`: twist when the block is exhausted, then
temper and return the word at the current index. -/
def mtNext (m : MT) : Nat × MT :=
  let m' := if m.idx ≥ 624 then { state := mtTwist m.state, idx := 0 } else m
  (mtTemper (m'.state.getD m'.idx 0), { m' with idx := m'.idx + 1 })

/-- Model of `std::uniform_real_distribution<>(0.0, 1.0)` applied to an mt19937, as
implemented via `std::generate_canonical<double, 53>` (libstdc++): two 32-bit
draws `x1, x2` combined as `(x1 + x2 * 2^32) / 2^64`. -/
def generate_canonical (g : MT) : ℚ × MT :=
  let r1 := mtNext g
  let r2 := mtNext r1.2
  (((r1.1 : ℚ) + (r2.1 : ℚ) * (U32MOD : ℚ)) / (U64MOD : ℚ), r2.2)

/-! ## UniformRNGProvider -/

/-- State of `UniformRNGProvider`: the base-class state plus the seeded mt19937. -/
structure UniformRNGProvider where
  base : RNGBase
  rng : MT
deriving Repr, DecidableEq

/-- Constructor `UniformRNGProvider(seed)`: base constructed with name `"uniform"`,
engine seeded with `seed`. -/
def UniformRNGProvider.mk' (env : Env) (seed : Nat) : UniformRNGProvider :=
  { base := RNGBase.mk' env "uniform", rng := mtInit seed }

/-- Model of `UniformRNGProvider::generate()`: draw one canonical uniform value,
log it, return it. -/
def UniformRNGProvider.generate (p : UniformRNGProvider) (now : Nat) :
    ℚ × UniformRNGProvider :=
  let d := generate_canonical p.rng
  (d.1, { base := p.base.log_value now d.1, rng := d.2 })

/-! ## NormalRNGProvider

`std::normal_distribution<>(0.5, 0.15)` is a transcendental floating-point
computation (Marsaglia polar / Box–Muller, implementation-defined); its raw
draw is therefore modelled as an explicit input `raw : ℚ` to `generate`.
What the source itself does with the raw draw — clamp into `[0, 1]` with
`std::max(0.0, std::min(1.0, raw_value))`, log, return — is embedded
faithfully. -/

/-- State of `NormalRNGProvider`: base-class state plus the seeded mt19937 engine
(kept for faithfulness; the raw normal draw itself is an input of
`generate`). -/
structure NormalRNGProvider where
  base : RNGBase
  rng : MT
deriving Repr, DecidableEq

/-- Constructor `NormalRNGProvider(seed)`. -/
def NormalRNGProvider.mk' (env : Env) (seed : Nat) : NormalRNGProvider :=
  { base := RNGBase.mk' env "normal", rng := mtInit seed }

/-- Model of `NormalRNGProvider::generate()` with the raw normal draw passed in:
`value = max(0.0, min(1.0, raw_value))`, then log and return. -/
def NormalRNGProvider.generate (p : NormalRNGProvider) (raw : ℚ) (now : Nat) :
    ℚ × NormalRNGProvider :=
  let value := max 0 (min 1 raw)
  (value, { p with base := p.base.log_value now value })

/-! ## ExternalAPIRNGProvider

One `curl_easy_perform` GET per call.  The transport result and the response
body are external inputs.  The body is parsed with `nlohmann::json::parse`
(throws on invalid JSON); on a parsed object the code checks
`j.contains("random") && j["random"].is_number()` and clamps the number into
`[0, 1]`; every failure path throws `std::runtime_error`.  Note the code
never inspects the HTTP status line: libcurl returns `CURLE_OK` for 4xx/5xx
responses, and no `CURLOPT_FAILONERROR` or `CURLINFO_RESPONSE_CODE` appears
in the source. -/

/-- A JSON value as far as the code discriminates it: a number, or anything
else (string, bool, object, array, null — only `is_number` matters). -/
inductive JsonValue where
  | num (r : ℚ)
  | notNum
deriving Repr, DecidableEq

/-- The response body as the code sees it: either not valid JSON
(`nlohmann::json::parse` throws), or a parsed JSON object with named
fields.  (Top-level non-object JSON behaves like an object without a
`random` field: `contains` is false.) -/
inductive HttpBody where
  | invalid
  | obj (fields : List (String × JsonValue))
deriving Repr, DecidableEq

/-- Result of `curl_easy_perform` plus the data the callback accumulated:
either a transport-level failure (`res != CURLE_OK`: refused connection,
timeout, DNS failure), or a delivered response with an HTTP status code and
a body. -/
inductive CurlResult where
  | transportError (msg : String)
  | response (status : Nat) (body : HttpBody)
deriving Repr, DecidableEq

/-- State of `ExternalAPIRNGProvider`: base-class state, the configured URL, and
whether `curl_easy_init` succeeded. -/
structure ExternalAPIRNGProvider where
  base : RNGBase
  api_url : String
  curl_ok : Bool
deriving Repr, DecidableEq

/-- Constructor `ExternalAPIRNGProvider(api_url)` (curl initialisation outcome passed
in; on failure the constructor only prints to stderr and continues). -/
def ExternalAPIRNGProvider.mk' (env : Env) (api_url : String) (curl_ok : Bool) :
    ExternalAPIRNGProvider :=
  { base := RNGBase.mk' env "external-api", api_url := api_url, curl_ok := curl_ok }

/-- Model of `j.contains("random") && j["random"].is_number()` followed by
`double value = j["random"]`: the first binding of the field `random`,
provided it is numeric. -/
def lookupRandom (fields : List (String × JsonValue)) : Option ℚ :=
  match fields.lookup "random" with
  | some (JsonValue.num r) => some r
  | _ => none

/-- Model of `ExternalAPIRNGProvider::generate()`: throw if curl is uninitialised or
the transport failed; otherwise parse the body (invalid JSON throws), look
up a numeric `random` field (missing/non-numeric throws), clamp the value
into `[0, 1]` with `max(0.0, min(1.0, value))`, log it and return it.  The
HTTP status of a delivered response is never examined. -/
def ExternalAPIRNGProvider.generate (p : ExternalAPIRNGProvider)
    (res : CurlResult) (now : Nat) : Except String (ℚ × ExternalAPIRNGProvider) :=
  if ¬ p.curl_ok then
    Except.error "Curl not initialized - cannot generate random numbers"
  else
    match res with
    | CurlResult.transportError msg =>
        Except.error ("curl_easy_perform() failed: " ++ msg)
    | CurlResult.response _ HttpBody.invalid =>
        Except.error "RNG API error: json parse error"
    | CurlResult.response _ (HttpBody.obj fields) =>
        match lookupRandom fields with
        | some r =>
            let value := max 0 (min 1 r)
            Except.ok (value, { p with base := p.base.log_value now value })
        | none =>
            Except.error "RNG API error: API response missing random field"

/-! ## SerialFPGARNGProvider

The serial port and the attached device are external: the filesystem (which
device paths exist, what `glob` auto-detection finds) is passed to the
constructor, and the incoming byte stream is passed to `generate` as a list
of bytes (each < 256).  The embedding follows the non-Windows, non-macOS
(Linux `termios`) compilation path: the one with the fixed `Bxxxx`
baud-rate enumeration. -/

/-- The serial-relevant world: which device paths can be `open`ed, and what
the `auto_detect_port` glob scan returns (`none` = no match ⇒ `""`). -/
structure SerialWorld where
  port_exists : String → Bool
  detected_port : Option String

/-- Model of `SerialFPGARNGProvider::auto_detect_port()`: first glob match, or `""`
when nothing matches. -/
def auto_detect_port (w : SerialWorld) : String :=
  w.detected_port.getD ""

/-- The Linux branch of `open_serial_port()`: `open(port)` must succeed, and
the requested baud rate must be one of the fixed enumeration constants
`B9600`, `B115200`, `B921600` — any other rate hits the `default` switch
case and returns `false` (no rounding to a nearby rate).  `tcgetattr` /
`tcsetattr` on an opened port are modelled as succeeding. -/
def open_serial_port (w : SerialWorld) (port_name : String) (baudrate : Int) : Bool :=
  w.port_exists port_name &&
    (baudrate == 9600 || baudrate == 115200 || baudrate == 921600)

/-- State of `SerialFPGARNGProvider`: base-class state, resolved port name, baud
rate. A constructed value corresponds to an open port (`serial_fd >= 0`). -/
structure SerialFPGARNGProvider where
  base : RNGBase
  port_name : String
  baudrate : Int
deriving Repr, DecidableEq

/-- Constructor `SerialFPGARNGProvider(port, baudrate)`: auto-detect when `port` is
empty; throw `std::runtime_error("Failed to open or configure serial port")`
when the resolved name is empty or `open_serial_port` fails. -/
def SerialFPGARNGProvider.mk' (env : Env) (w : SerialWorld)
    (port : String) (baudrate : Int) : Except String SerialFPGARNGProvider :=
  let port_name := if port = "" then auto_detect_port w else port
  if port_name = "" ∨ ¬ open_serial_port w port_name baudrate then
    Except.error ("Failed to open or configure serial port: " ++ port_name)
  else
    Except.ok { base := RNGBase.mk' env "fpga-serial"
                port_name := port_name
                baudrate := baudrate }

/-- Model of `SerialFPGARNGProvider::read_byte()`: consume one byte from the stream;
a read that yields no byte (timeout / error) throws. -/
def read_byte (stream : List Nat) : Except String (Nat × List Nat) :=
  match stream with
  | [] => Except.error "Failed to read from FPGA serial port (Unix)"
  | b :: rest => Except.ok (b, rest)

/-- The 4-byte little-endian combination of `read_u32`, written exactly as
the source writes it. -/
def combineLE (b0 b1 b2 b3 : Nat) : Nat :=
  (b3 <<< 24) ||| (b2 <<< 16) ||| (b1 <<< 8) ||| b0

/-- Model of `SerialFPGARNGProvider::read_u32()`: read 4 consecutive bytes
`bytes[0..3]` and combine `(b3 << 24) | (b2 << 16) | (b1 << 8) | b0` —
little-endian, first byte least significant. -/
def read_u32 (stream : List Nat) : Except String (Nat × List Nat) := do
  let (b0, s0) ← read_byte stream
  let (b1, s1) ← read_byte s0
  let (b2, s2) ← read_byte s1
  let (b3, s3) ← read_byte s2
  pure ((combineLE b0 b1 b2 b3, s3))

/-- Model of `SerialFPGARNGProvider::generate()`: `random_int = read_u32()`;
`value = random_int / (double)0xFFFFFFFF`; log; return.  Returns the value,
the updated provider and the remaining stream. -/
def SerialFPGARNGProvider.generate (p : SerialFPGARNGProvider)
    (stream : List Nat) (now : Nat) :
    Except String (ℚ × SerialFPGARNGProvider × List Nat) := do
  let (random_int, rest) ← read_u32 stream
  let value : ℚ := (random_int : ℚ) / 4294967295
  pure (value, { p with base := p.base.log_value now value }, rest)

/-! ## The factory `create_rng_provider` -/

/-- A constructed provider, tagged by backend. -/
inductive Provider where
  | uniform (p : UniformRNGProvider)
  | normal (p : NormalRNGProvider)
  | externalApi (p : ExternalAPIRNGProvider)
  | fpgaSerial (p : SerialFPGARNGProvider)
deriving Repr, DecidableEq

/-- Model of `std::atoi` on the digits-only strings relevant here: leading decimal
digits (with optional sign after optional spaces), 0 when none. -/
def atoi (s : String) : Int :=
  let chars := s.toList.dropWhile (fun c => c = ' ')
  let signed : Bool × List Char :=
    match chars with
    | '-' :: rest => (true, rest)
    | '+' :: rest => (false, rest)
    | rest => (false, rest)
  let digits := signed.2.takeWhile Char.isDigit
  let mag : Nat := digits.foldl (fun acc c => acc * 10 + (c.toNat - 48)) 0
  if signed.1 then -(mag : Int) else (mag : Int)

/-- Model of `create_rng_provider(type, seed)`: `"normal"` → normal; `"external-api"`
→ external provider when `LLAMA_RNG_API_URL` is set, else a stderr
diagnostic and a uniform fallback; `"fpga-serial"` → serial provider from
`LLAMA_FPGA_PORT` / `LLAMA_FPGA_BAUDRATE` (default 921600) whose constructor
may throw; every other string → uniform, with no diagnostic.  Returns the
provider together with the list of stderr diagnostics emitted. -/
def create_rng_provider (env : Env) (w : SerialWorld) (curl_ok : Bool)
    (type : String) (seed : Nat) : Except String (Provider × List String) :=
  if type = "normal" then
    Except.ok (Provider.normal (NormalRNGProvider.mk' env seed), [])
  else if type = "external-api" then
    match env.llama_rng_api_url with
    | none =>
        Except.ok (Provider.uniform (UniformRNGProvider.mk' env seed),
          ["Error: LLAMA_RNG_API_URL environment variable not set for external-api provider"])
    | some url =>
        Except.ok (Provider.externalApi (ExternalAPIRNGProvider.mk' env url curl_ok), [])
  else if type = "fpga-serial" then
    let port := (env.llama_fpga_port).getD ""
    let baudrate : Int :=
      match env.llama_fpga_baudrate with
      | some s => atoi s
      | none => 921600
    match SerialFPGARNGProvider.mk' env w port baudrate with
    | Except.error e => Except.error e
    | Except.ok p => Except.ok (Provider.fpgaSerial p, [])
  else
    Except.ok (Provider.uniform (UniformRNGProvider.mk' env seed), [])

/-! ## Virtual dispatch and session runs

`RNGProvider::generate()` is a virtual call; the wrapper below dispatches on
the constructed backend.  The oracles every backend might consume — the raw
normal draw, the curl result, the serial byte stream, the wall clock — are
passed in and ignored by the backends that do not use them. -/

/-- The `RNGProvider` base-class sub-object of a constructed provider. -/
def Provider.base : Provider → RNGBase
  | Provider.uniform q => q.base
  | Provider.normal q => q.base
  | Provider.externalApi q => q.base
  | Provider.fpgaSerial q => q.base

/-- Replace the base-class sub-object (used to compare runs that differ
only in logging configuration). -/
def Provider.setBase : Provider → RNGBase → Provider
  | Provider.uniform q, b => Provider.uniform { q with base := b }
  | Provider.normal q, b => Provider.normal { q with base := b }
  | Provider.externalApi q, b => Provider.externalApi { q with base := b }
  | Provider.fpgaSerial q, b => Provider.fpgaSerial { q with base := b }

/-- Application of `set_output_file` through the base class. -/
def Provider.set_output_file (p : Provider) (filename : String) : Provider :=
  p.setBase (p.base.set_output_file filename)

/-- The backend name (the string passed to the `RNGProvider` constructor
by each subclass). -/
def Provider.kind : Provider → String
  | Provider.uniform _ => "uniform"
  | Provider.normal _ => "normal"
  | Provider.externalApi _ => "external-api"
  | Provider.fpgaSerial _ => "fpga-serial"

/-- One virtual `generate()` call.  Returns the value, the updated provider
and the rest of the serial byte stream (unchanged for non-serial
backends). -/
def Provider.generate (p : Provider) (raw : ℚ) (res : CurlResult)
    (stream : List Nat) (now : Nat) : Except String (ℚ × Provider × List Nat) :=
  match p with
  | Provider.uniform q =>
      let d := q.generate now
      Except.ok (d.1, Provider.uniform d.2, stream)
  | Provider.normal q =>
      let d := q.generate raw now
      Except.ok (d.1, Provider.normal d.2, stream)
  | Provider.externalApi q =>
      (q.generate res now).map (fun r => (r.1, Provider.externalApi r.2, stream))
  | Provider.fpgaSerial q =>
      (q.generate stream now).map (fun r => (r.1, Provider.fpgaSerial r.2.1, r.2.2))

/-- The external inputs of one `generate()` call. -/
structure CallInput where
  raw : ℚ
  res : CurlResult
  stream : List Nat
  now : Nat

/-- Run a sequence of `generate()` calls; `none` when some call fails. -/
def runCalls (p : Provider) : List CallInput → Option Provider
  | [] => some p
  | c :: cs =>
      match Provider.generate p c.raw c.res c.stream c.now with
      | Except.ok r => runCalls r.2.1 cs
      | Except.error _ => none

/-- The values returned by successive `generate()` calls, up to the first
failing call. -/
def runValues (p : Provider) : List CallInput → List ℚ
  | [] => []
  | c :: cs =>
      match Provider.generate p c.raw c.res c.stream c.now with
      | Except.ok r => r.1 :: runValues r.2.1 cs
      | Except.error _ => []

/-- The value sequence of a uniform provider over one `generate()` call per
clock read. -/
def uniformValueSeq (p : UniformRNGProvider) : List Nat → List ℚ
  | [] => []
  | t :: ts =>
      let d := p.generate t
      d.1 :: uniformValueSeq d.2 ts

/-- The value sequence drawn straight from the engine, ignoring logging. -/
def mtValueSeq (g : MT) : Nat → List ℚ
  | 0 => []
  | n + 1 =>
      let d := generate_canonical g
      d.1 :: mtValueSeq d.2 n

/-! ## Concrete fixtures used by witnesses and counterexamples -/

/-- An empty environment: no RNG variable set. -/
def envEmpty : Env :=
  { llama_rng_debug := none, llama_rng_api_url := none
    llama_fpga_port := none, llama_fpga_baudrate := none }

/-- An environment with `LLAMA_RNG_DEBUG=1` (logging armed). -/
def envDebug : Env :=
  { llama_rng_debug := some "1", llama_rng_api_url := none
    llama_fpga_port := none, llama_fpga_baudrate := none }

/-- A machine with no serial devices at all. -/
def wNone : SerialWorld :=
  { port_exists := fun _ => false, detected_port := none }

/-- A machine with one USB-serial device at `/dev/cu.usbserial0`. -/
def wDev : SerialWorld :=
  { port_exists := fun s => s == "/dev/cu.usbserial0"
    detected_port := some "/dev/cu.usbserial0" }

/-- The serial provider `SerialFPGARNGProvider("", 921600)` constructs on
`wDev` (auto-detected port, default baud rate). -/
def serialTestProvider : SerialFPGARNGProvider :=
  { base := RNGBase.mk' envEmpty "fpga-serial"
    port_name := "/dev/cu.usbserial0", baudrate := 921600 }

/-- A normal-backend provider with no logging. -/
def normalTestProvider : Provider :=
  Provider.normal (NormalRNGProvider.mk' envEmpty 7)

/-- A uniform-backend provider constructed with debug logging armed. -/
def uniformDbgProvider : Provider :=
  Provider.uniform (UniformRNGProvider.mk' envDebug 42)

/-- An external-api provider with a configured URL and working curl. -/
def apiTestProvider : ExternalAPIRNGProvider :=
  ExternalAPIRNGProvider.mk' envEmpty "http://localhost:8000/random" true

/-- A blank base-class state, used to compare providers modulo their
logging state. -/
def blankBase : RNGBase :=
  { name := "", debug_enabled := false, output_file := none }

/-- Erase the logging/base state of a provider (for stating that generated
values do not depend on it). -/
def Provider.stripLog (p : Provider) : Provider :=
  p.setBase blankBase

/-- The two header comment lines `set_output_file` writes for a provider of
the given name. -/
def headerLines (name : String) : List LogLine :=
  [LogLine.header ("# RNG values from " ++ name ++ " provider"),
   LogLine.header "# Format: timestamp_ms,random_value"]

/-! ## Helper lemmas -/

/-- Disjoint bit-or is addition: `(a <<< n) ||| b = a * 2 ^ n + b` for
`b < 2 ^ n`. -/
theorem shiftLeft_or_eq_add {a b n : Nat} (hb : b < 2 ^ n) :
    (a <<< n) ||| b = 2 ^ n * a + b := by
  apply Nat.eq_of_testBit_eq
  intro j
  rw [Nat.testBit_or, Nat.testBit_shiftLeft, Nat.testBit_mul_pow_two_add a hb j]
  by_cases hj : j < n
  · simp [hj, Nat.not_le.mpr hj]
  · have hbj : b.testBit j = false :=
      Nat.testBit_lt_two_pow (lt_of_lt_of_le hb (Nat.pow_le_pow_right (by norm_num) (Nat.not_lt.mp hj)))
    simp [hj, Nat.le_of_not_lt hj, hbj]

/-- With in-range bytes, the shift/or combination of the source is the
little-endian positional sum: the first byte read is least significant. -/
theorem combineLE_eq {b0 b1 b2 b3 : Nat}
    (h0 : b0 < 256) (h1 : b1 < 256) (h2 : b2 < 256) (h3 : b3 < 256) :
    combineLE b0 b1 b2 b3 = b0 + 256 * b1 + 65536 * b2 + 16777216 * b3 := by
  unfold combineLE
  rw [Nat.lor_assoc, Nat.lor_assoc]
  have e1 : (b1 <<< 8) ||| b0 = 2 ^ 8 * b1 + b0 :=
    shiftLeft_or_eq_add (by omega)
  rw [e1]
  have e2 : (b2 <<< 16) ||| (2 ^ 8 * b1 + b0) = 2 ^ 16 * b2 + (2 ^ 8 * b1 + b0) :=
    shiftLeft_or_eq_add (by norm_num; omega)
  rw [e2]
  have e3 : (b3 <<< 24) ||| (2 ^ 16 * b2 + (2 ^ 8 * b1 + b0))
      = 2 ^ 24 * b3 + (2 ^ 16 * b2 + (2 ^ 8 * b1 + b0)) :=
    shiftLeft_or_eq_add (by norm_num; omega)
  rw [e3]
  norm_num; omega

/-- With in-range bytes the combined value fits in 32 bits, i.e. is at most
`0xFFFFFFFF`. -/
theorem combineLE_le {b0 b1 b2 b3 : Nat}
    (h0 : b0 < 256) (h1 : b1 < 256) (h2 : b2 < 256) (h3 : b3 < 256) :
    combineLE b0 b1 b2 b3 ≤ 4294967295 := by
  rw [combineLE_eq h0 h1 h2 h3]; omega

/-- Evaluation of `read_u32` on a stream of at least four bytes: consumes exactly the
first four and combines them little-endian. -/
theorem read_u32_cons (b0 b1 b2 b3 : Nat) (rest : List Nat) :
    read_u32 (b0 :: b1 :: b2 :: b3 :: rest) = Except.ok (combineLE b0 b1 b2 b3, rest) := rfl

/-- The clamp `max(0.0, min(1.0, r))` lies in `[0, 1]`. -/
theorem clamp_mem_unit (r : ℚ) : 0 ≤ max 0 (min 1 r) ∧ max 0 (min 1 r) ≤ 1 :=
  ⟨le_max_left 0 _, max_le (by norm_num) (min_le_left 1 r)⟩

/-- mt19937 tempering produces a 32-bit word. -/
theorem mtTemper_lt (y : Nat) : mtTemper y < U32MOD := by
  simp only [mtTemper]
  exact Nat.mod_lt _ (by norm_num [U32MOD])

/-- Every mt19937 draw is a 32-bit word. -/
theorem mtNext_fst_lt (m : MT) : (mtNext m).1 < U32MOD := by
  simp only [mtNext]
  exact mtTemper_lt _

/-- The canonical uniform draw is nonnegative. -/
theorem generate_canonical_nonneg (g : MT) : 0 ≤ (generate_canonical g).1 := by
  simp only [generate_canonical]
  apply div_nonneg
  · positivity
  · norm_num [U64MOD]

/-- The canonical uniform draw is strictly below 1. -/
theorem generate_canonical_lt_one (g : MT) : (generate_canonical g).1 < 1 := by
  simp only [generate_canonical]
  rw [div_lt_one (by norm_num [U64MOD])]
  have h1 : ((mtNext g).1 : ℚ) ≤ 4294967295 := by
    have := mtNext_fst_lt g
    have : (mtNext g).1 ≤ 4294967295 := by simp [U32MOD] at this; omega
    exact_mod_cast this
  have h2 : ((mtNext (mtNext g).2).1 : ℚ) ≤ 4294967295 := by
    have := mtNext_fst_lt (mtNext g).2
    have : (mtNext (mtNext g).2).1 ≤ 4294967295 := by simp [U32MOD] at this; omega
    exact_mod_cast this
  simp only [U32MOD, U64MOD]
  push_cast
  nlinarith [h1, h2]


/-! ## Shape of successful `generate()` calls -/

/-- A successful external-api `generate()` came from a delivered response
whose body is a JSON object with a numeric `random` field; the returned
value is its clamp and the only state change is the appended log record.
The HTTP status is arbitrary. -/
theorem external_generate_ok (q : ExternalAPIRNGProvider) (res : CurlResult) (now : Nat)
    (x : ℚ × ExternalAPIRNGProvider) (h : q.generate res now = Except.ok x) :
    x.2 = { q with base := q.base.log_value now x.1 } ∧ q.curl_ok = true ∧
      ∃ st fields r, res = CurlResult.response st (HttpBody.obj fields) ∧
        lookupRandom fields = some r ∧ x.1 = max 0 (min 1 r) := by
  by_cases hc : q.curl_ok
  · rcases res with msg | ⟨st, body⟩
    · simp [ExternalAPIRNGProvider.generate, hc] at h
    · rcases body with _ | fields
      · simp [ExternalAPIRNGProvider.generate, hc] at h
      · rcases hlr : lookupRandom fields with _ | r
        · simp [ExternalAPIRNGProvider.generate, hc, hlr] at h
        · simp [ExternalAPIRNGProvider.generate, hc, hlr] at h
          subst h
          refine ⟨?_, hc, st, fields, r, rfl, hlr, rfl⟩
          simp [hc]
  · simp [ExternalAPIRNGProvider.generate, hc] at h

/-- A successful serial `generate()` consumed exactly the first four bytes
of the stream, returned their little-endian combination divided by
`0xFFFFFFFF`, and appended one log record. -/
theorem serial_generate_ok (q : SerialFPGARNGProvider) (stream : List Nat) (now : Nat)
    (y : ℚ × SerialFPGARNGProvider × List Nat) (h : q.generate stream now = Except.ok y) :
    y.2.1 = { q with base := q.base.log_value now y.1 } ∧
      ∃ b0 b1 b2 b3 rest, stream = b0 :: b1 :: b2 :: b3 :: rest ∧
        y.1 = (combineLE b0 b1 b2 b3 : ℚ) / 4294967295 ∧ y.2.2 = rest := by
  rcases stream with _ | ⟨b0, _ | ⟨b1, _ | ⟨b2, _ | ⟨b3, rest⟩⟩⟩⟩ <;>
    simp [SerialFPGARNGProvider.generate, read_u32, read_byte, Bind.bind, Except.bind,
      Pure.pure, Except.pure] at h
  subst h
  exact ⟨rfl, b0, b1, b2, b3, rest, rfl, rfl, rfl⟩

/-- On success, the `generate()` of every backend changes the base-class state by
exactly one appended log record and never changes the backend. -/
theorem generate_ok_shape (p : Provider) (raw : ℚ) (res : CurlResult) (stream : List Nat)
    (now : Nat) (v : ℚ) (p' : Provider) (rest : List Nat)
    (h : Provider.generate p raw res stream now = Except.ok (v, p', rest)) :
    p'.base = p.base.log_value now v ∧ p'.kind = p.kind := by
  cases p with
  | uniform q =>
      simp only [Provider.generate, UniformRNGProvider.generate, Except.ok.injEq,
        Prod.mk.injEq] at h
      obtain ⟨h1, h2, -⟩ := h
      subst h1; subst h2
      simp [Provider.base, Provider.kind]
  | normal q =>
      simp only [Provider.generate, NormalRNGProvider.generate, Except.ok.injEq,
        Prod.mk.injEq] at h
      obtain ⟨h1, h2, -⟩ := h
      subst h1; subst h2
      simp [Provider.base, Provider.kind]
  | externalApi q =>
      rcases hg : q.generate res now with e | x
      · simp [Provider.generate, hg, Except.map] at h
      · simp only [Provider.generate, hg, Except.map, Except.ok.injEq, Prod.mk.injEq] at h
        obtain ⟨h1, h2, -⟩ := h
        subst h1; subst h2
        have hsh := external_generate_ok q res now x hg
        simp [Provider.base, Provider.kind, hsh.1]
  | fpgaSerial q =>
      rcases hg : q.generate stream now with e | y
      · simp [Provider.generate, hg, Except.map] at h
      · simp only [Provider.generate, hg, Except.map, Except.ok.injEq, Prod.mk.injEq] at h
        obtain ⟨h1, h2, -⟩ := h
        subst h1; subst h2
        have hsh := serial_generate_ok q stream now y hg
        simp [Provider.base, Provider.kind, hsh.1]

/-- Core bound: a successful `generate()` of any backend, on a stream of
genuine bytes, returns a value in `[0, 1]`. -/
theorem generate_ok_bounds (p : Provider) (raw : ℚ) (res : CurlResult) (stream : List Nat)
    (now : Nat) (v : ℚ) (p' : Provider) (rest : List Nat)
    (hbytes : ∀ b ∈ stream, b < 256)
    (h : Provider.generate p raw res stream now = Except.ok (v, p', rest)) :
    0 ≤ v ∧ v ≤ 1 := by
  cases p with
  | uniform q =>
      simp only [Provider.generate, UniformRNGProvider.generate, Except.ok.injEq,
        Prod.mk.injEq] at h
      obtain ⟨h1, -, -⟩ := h
      subst h1
      exact ⟨generate_canonical_nonneg _, le_of_lt (generate_canonical_lt_one _)⟩
  | normal q =>
      simp only [Provider.generate, NormalRNGProvider.generate, Except.ok.injEq,
        Prod.mk.injEq] at h
      obtain ⟨h1, -, -⟩ := h
      subst h1
      exact clamp_mem_unit raw
  | externalApi q =>
      rcases hg : q.generate res now with e | x
      · simp [Provider.generate, hg, Except.map] at h
      · obtain ⟨-, -, st, fields, r, -, -, hx1⟩ := external_generate_ok q res now x hg
        simp only [Provider.generate, hg, Except.map, Except.ok.injEq, Prod.mk.injEq] at h
        obtain ⟨h1, -, -⟩ := h
        subst h1
        rw [hx1]
        exact clamp_mem_unit r
  | fpgaSerial q =>
      rcases hg : q.generate stream now with e | y
      · simp [Provider.generate, hg, Except.map] at h
      · obtain ⟨-, b0, b1, b2, b3, rest2, hs, hy1, -⟩ := serial_generate_ok q stream now y hg
        simp only [Provider.generate, hg, Except.map, Except.ok.injEq, Prod.mk.injEq] at h
        obtain ⟨hv, -, -⟩ := h
        subst hv
        rw [hy1]
        subst hs
        have hb0 : b0 < 256 := hbytes b0 (by simp)
        have hb1 : b1 < 256 := hbytes b1 (by simp)
        have hb2 : b2 < 256 := hbytes b2 (by simp)
        have hb3 : b3 < 256 := hbytes b3 (by simp)
        constructor
        · positivity
        · rw [div_le_one (by norm_num)]
          exact_mod_cast combineLE_le hb0 hb1 hb2 hb3

/-- Reading `base` after `setBase` gives the new base. -/
theorem base_setBase (p : Provider) (b : RNGBase) : (p.setBase b).base = b := by
  cases p <;> rfl

/-- A second `setBase` overwrites a previous one. -/
theorem setBase_setBase (p : Provider) (b b' : RNGBase) :
    (p.setBase b).setBase b' = p.setBase b' := by
  cases p <;> rfl

/-- Re-installing the own base of a provider is the identity. -/
theorem setBase_base (p : Provider) : p.setBase p.base = p := by
  cases p <;> rfl

/-- One `generate()` call behaves identically — same value, same
non-logging state evolution, same residual stream, same success/failure —
no matter what base-class (logging) state is installed and what the clock
reads. -/
theorem generate_setBase (p : Provider) (b : RNGBase) (raw : ℚ) (res : CurlResult)
    (stream : List Nat) (now now' : Nat) :
    (Provider.generate (p.setBase b) raw res stream now').map
        (fun r => (r.1, r.2.1.stripLog, r.2.2)) =
      (Provider.generate p raw res stream now).map
        (fun r => (r.1, r.2.1.stripLog, r.2.2)) := by
  cases p with
  | uniform q => rfl
  | normal q => rfl
  | externalApi q =>
      by_cases hc : q.curl_ok
      · rcases res with msg | ⟨st, body⟩
        · simp [Provider.generate, Provider.setBase, ExternalAPIRNGProvider.generate, hc,
            Except.map]
        · rcases body with _ | fields
          · simp [Provider.generate, Provider.setBase, ExternalAPIRNGProvider.generate, hc,
              Except.map]
          · rcases hlr : lookupRandom fields with _ | r
            · simp [Provider.generate, Provider.setBase, ExternalAPIRNGProvider.generate, hc,
                hlr, Except.map]
            · simp [Provider.generate, Provider.setBase, ExternalAPIRNGProvider.generate, hc,
                hlr, Except.map, Provider.stripLog]
      · simp [Provider.generate, Provider.setBase, ExternalAPIRNGProvider.generate, hc,
          Except.map]
  | fpgaSerial q =>
      rcases stream with _ | ⟨b0, _ | ⟨b1, _ | ⟨b2, _ | ⟨b3, rest⟩⟩⟩⟩ <;>
        simp [Provider.generate, Provider.setBase, SerialFPGARNGProvider.generate,
          read_u32, read_byte, Except.map, Bind.bind, Except.bind, Pure.pure, Except.pure,
          Provider.stripLog]

/-- The whole sequence of returned values is independent of the installed
logging state. -/
theorem runValues_setBase (cs : List CallInput) (p : Provider) (b : RNGBase) :
    runValues (p.setBase b) cs = runValues p cs := by
  induction cs generalizing p b with
  | nil => rfl
  | cons c cs ih =>
      have hstep := generate_setBase p b c.raw c.res c.stream c.now c.now
      rcases hg : Provider.generate p c.raw c.res c.stream c.now with e | r
      · rcases hg2 : Provider.generate (p.setBase b) c.raw c.res c.stream c.now with e2 | r2
        · simp [runValues, hg, hg2]
        · rw [hg, hg2] at hstep; simp [Except.map] at hstep
      · rcases hg2 : Provider.generate (p.setBase b) c.raw c.res c.stream c.now with e2 | r2
        · rw [hg, hg2] at hstep; simp [Except.map] at hstep
        · rw [hg, hg2] at hstep
          simp only [Except.map, Except.ok.injEq, Prod.mk.injEq] at hstep
          obtain ⟨hv, hsl, -⟩ := hstep
          have hre : r2.2.1 = (r.2.1).setBase (r2.2.1.base) := by
            have h2 := congrArg (fun x => Provider.setBase x (r2.2.1.base)) hsl
            simpa [Provider.stripLog, setBase_setBase, setBase_base] using h2
          simp only [runValues, hg, hg2]
          rw [hv, hre, ih]

/-- With the log file open, a run of successful calls appends exactly one
record per call, carrying the clock read of that call, after the existing
lines. -/
theorem runCalls_log (cs : List CallInput) :
    ∀ (p : Provider) (ls : List LogLine) (p' : Provider),
      p.base.output_file = some ls → runCalls p cs = some p' →
      ∃ recs : List (Nat × ℚ),
        p'.base.output_file = some (ls ++ recs.map (fun r => LogLine.record r.1 r.2)) ∧
        recs.map Prod.fst = cs.map CallInput.now ∧ recs.length = cs.length := by
  induction cs with
  | nil =>
      intro p ls p' hf hr
      simp [runCalls] at hr
      subst hr
      exact ⟨[], by simp [hf], rfl, rfl⟩
  | cons c cs ih =>
      intro p ls p' hf hr
      rcases hg : Provider.generate p c.raw c.res c.stream c.now with e | r
      · simp [runCalls, hg] at hr
      · simp only [runCalls, hg] at hr
        obtain ⟨hb, -⟩ :=
          generate_ok_shape p c.raw c.res c.stream c.now r.1 r.2.1 r.2.2 (by rw [hg])
        have hf' : r.2.1.base.output_file = some (ls ++ [LogLine.record c.now r.1]) := by
          simp [hb, RNGBase.log_value, hf]
        obtain ⟨recs, hA, hB, hC⟩ := ih r.2.1 _ p' hf' hr
        refine ⟨(c.now, r.1) :: recs, ?_, by simp [hB], by simp [hC]⟩
        simpa [List.append_assoc] using hA

/-- The value sequence of a uniform provider depends only on the engine
state and the number of calls, not on logging or the clock. -/
theorem uniformValueSeq_eq (ts : List Nat) :
    ∀ p : UniformRNGProvider, uniformValueSeq p ts = mtValueSeq p.rng ts.length := by
  induction ts with
  | nil => intro p; rfl
  | cons t ts ih =>
      intro p
      simp only [uniformValueSeq, mtValueSeq, List.length_cons]
      rw [ih]
      simp [UniformRNGProvider.generate]

/-! ## The claims -/

/-- Claim C1: for every backend (uniform, normal, external-api, fpga-serial)
and every call to `generate()` that returns normally, the returned value `v`
satisfies `0 ≤ v ≤ 1`. -/
theorem claim1_generate_in_unit_interval (p : Provider) (raw : ℚ) (res : CurlResult)
    (stream : List Nat) (now : Nat) (v : ℚ) (p' : Provider) (rest : List Nat)
    (hbytes : ∀ b ∈ stream, b < 256)
    (h : Provider.generate p raw res stream now = Except.ok (v, p', rest)) :
    0 ≤ v ∧ v ≤ 1 :=
  generate_ok_bounds p raw res stream now v p' rest hbytes h

/-- Witness for C1: a concrete successful normal-backend call with raw draw
`1/2` returns `1/2`, which lies in `[0, 1]`. -/
theorem claim1_witness :
    Provider.generate normalTestProvider (1/2) (CurlResult.transportError "e") [] 3 =
      Except.ok (1/2, normalTestProvider, []) ∧ 0 ≤ (1/2 : ℚ) ∧ (1/2 : ℚ) ≤ 1 := by
  have hb : ∀ b ∈ ([] : List Nat), b < 256 := by simp
  have hg : Provider.generate normalTestProvider (1/2) (CurlResult.transportError "e") [] 3 =
      Except.ok (1/2, normalTestProvider, []) := by
    simp only [normalTestProvider, Provider.generate, NormalRNGProvider.generate,
      NormalRNGProvider.mk', RNGBase.mk', RNGBase.log_value, envEmpty]
    norm_num
  exact ⟨hg, claim1_generate_in_unit_interval normalTestProvider (1/2)
    (CurlResult.transportError "e") [] 3 (1/2) normalTestProvider [] hb hg⟩

/-- Claim C4: each successful serial `generate()` consumes exactly 4
consecutive bytes, combines them little-endian (first byte least
significant) into `n`, and returns `n / 0xFFFFFFFF`; bytes
`[0,0,0,0]` yield exactly 0 and bytes `[0xFF,0xFF,0xFF,0xFF]` yield
exactly 1. -/
theorem claim4_serial_byte_mapping :
    (∀ (p : SerialFPGARNGProvider) (b0 b1 b2 b3 : Nat) (rest : List Nat) (now : Nat),
        b0 < 256 → b1 < 256 → b2 < 256 → b3 < 256 →
        p.generate (b0 :: b1 :: b2 :: b3 :: rest) now =
          Except.ok (((b0 + 256 * b1 + 65536 * b2 + 16777216 * b3 : Nat) : ℚ) / 4294967295,
            { p with base := p.base.log_value now (((b0 + 256 * b1 + 65536 * b2 + 16777216 * b3 : Nat) : ℚ) / 4294967295) },
            rest))
  ∧ (SerialFPGARNGProvider.generate serialTestProvider [0, 0, 0, 0] 5).map (fun r => r.1) =
      Except.ok 0
  ∧ (SerialFPGARNGProvider.generate serialTestProvider [255, 255, 255, 255] 5).map
      (fun r => r.1) = Except.ok 1 := by
  refine ⟨?_, ?_, ?_⟩
  · intro p b0 b1 b2 b3 rest now h0 h1 h2 h3
    have hc := combineLE_eq h0 h1 h2 h3
    simp [SerialFPGARNGProvider.generate, read_u32, read_byte, Bind.bind, Except.bind,
      Pure.pure, Except.pure, hc]
  · have h00 : combineLE 0 0 0 0 = 0 := by decide
    simp [SerialFPGARNGProvider.generate, read_u32, read_byte, Bind.bind, Except.bind,
      Pure.pure, Except.pure, Except.map, h00]
  · have hff : combineLE 255 255 255 255 = 4294967295 := by decide
    simp [SerialFPGARNGProvider.generate, read_u32, read_byte, Bind.bind, Except.bind,
      Pure.pure, Except.pure, Except.map, hff]

/-- Witness for C4: the general byte-mapping conjunct applied to the
concrete byte frame `[1, 2, 3, 4]`. -/
theorem claim4_witness :
    SerialFPGARNGProvider.generate serialTestProvider [1, 2, 3, 4] 9 =
      Except.ok (((1 + 256 * 2 + 65536 * 3 + 16777216 * 4 : Nat) : ℚ) / 4294967295,
        { serialTestProvider with base := serialTestProvider.base.log_value 9 (((1 + 256 * 2 + 65536 * 3 + 16777216 * 4 : Nat) : ℚ) / 4294967295) },
        []) :=
  claim4_serial_byte_mapping.1 serialTestProvider 1 2 3 4 [] 9
    (by norm_num) (by norm_num) (by norm_num) (by norm_num)

/-- Claim C6: two local-uniform providers constructed with the same seed
return identical value sequences over the same number of calls, whatever
their logging environments and clock readings. -/
theorem claim6_uniform_determinism (env1 env2 : Env) (s1 s2 : Nat)
    (ts1 ts2 : List Nat) (hseed : s1 = s2) (hlen : ts1.length = ts2.length) :
    uniformValueSeq (UniformRNGProvider.mk' env1 s1) ts1 =
      uniformValueSeq (UniformRNGProvider.mk' env2 s2) ts2 := by
  subst hseed
  rw [uniformValueSeq_eq, uniformValueSeq_eq]
  simp [UniformRNGProvider.mk', hlen]

/-- Witness for C6: seed 42 under two different environments and clocks. -/
theorem claim6_witness :
    uniformValueSeq (UniformRNGProvider.mk' envEmpty 42) [1, 2, 3] =
      uniformValueSeq (UniformRNGProvider.mk' envDebug 42) [10, 11, 12] :=
  claim6_uniform_determinism envEmpty envDebug 42 42 [1, 2, 3] [10, 11, 12] rfl rfl

/-- Counterexample for C2: with kind `fpga-serial` and no port configured or
detectable, the factory propagates a construction failure instead of
returning a local-uniform provider; and for the unknown kind `"quantum"` it
returns a uniform provider with an empty diagnostic list (no diagnostic is
emitted). -/
theorem claim2_counterexample :
    create_rng_provider envEmpty wNone true "fpga-serial" 42 =
      Except.error ("Failed to open or configure serial port: " ++ "") ∧
    create_rng_provider envEmpty wNone true "quantum" 42 =
      Except.ok (Provider.uniform (UniformRNGProvider.mk' envEmpty 42), []) :=
  ⟨rfl, rfl⟩

/-- Claim C2 (amended): an unknown kind string falls back to a local-uniform
provider silently, with no diagnostic; `external-api` with no URL configured
falls back to local-uniform with a stderr diagnostic; `fpga-serial` with no
port configured or auto-detected fails at construction (an exception, no
fallback); and backend substitution never happens during a later
`generate()` call: a successful call preserves the backend. -/
theorem claim2_factory_fallback :
    (∀ (env : Env) (w : SerialWorld) (c : Bool) (seed : Nat) (type : String),
        type ≠ "normal" → type ≠ "external-api" → type ≠ "fpga-serial" →
        create_rng_provider env w c type seed =
          Except.ok (Provider.uniform (UniformRNGProvider.mk' env seed), []))
  ∧ (∀ (env : Env) (w : SerialWorld) (c : Bool) (seed : Nat),
        env.llama_rng_api_url = none →
        create_rng_provider env w c "external-api" seed =
          Except.ok (Provider.uniform (UniformRNGProvider.mk' env seed),
            ["Error: LLAMA_RNG_API_URL environment variable not set for external-api provider"]))
  ∧ (∀ (env : Env) (w : SerialWorld) (c : Bool) (seed : Nat),
        env.llama_fpga_port = none → w.detected_port = none →
        create_rng_provider env w c "fpga-serial" seed =
          Except.error ("Failed to open or configure serial port: " ++ ""))
  ∧ (∀ (p : Provider) (raw : ℚ) (res : CurlResult) (stream : List Nat) (now : Nat)
        (v : ℚ) (p' : Provider) (rest : List Nat),
        Provider.generate p raw res stream now = Except.ok (v, p', rest) →
        p'.kind = p.kind) := by
  refine ⟨?_, ?_, ?_, ?_⟩
  · intro env w c seed type h1 h2 h3
    simp [create_rng_provider, h1, h2, h3]
  · intro env w c seed hurl
    simp [create_rng_provider, hurl]
  · intro env w c seed hport hdet
    simp [create_rng_provider, hport, hdet, SerialFPGARNGProvider.mk', auto_detect_port]
  · intro p raw res stream now v p' rest h
    exact (generate_ok_shape p raw res stream now v p' rest h).2

/-- Witness for C2 (amended): the four conjuncts at concrete inputs —
unknown kind `"quantum"`, `external-api` with `LLAMA_RNG_API_URL` unset,
`fpga-serial` on a machine with no serial device, and a concrete successful
call that keeps its backend. -/
theorem claim2_witness :
    create_rng_provider envEmpty wNone true "quantum" 3 =
      Except.ok (Provider.uniform (UniformRNGProvider.mk' envEmpty 3), []) ∧
    create_rng_provider envEmpty wNone true "external-api" 3 =
      Except.ok (Provider.uniform (UniformRNGProvider.mk' envEmpty 3),
        ["Error: LLAMA_RNG_API_URL environment variable not set for external-api provider"]) ∧
    create_rng_provider envEmpty wNone true "fpga-serial" 3 =
      Except.error ("Failed to open or configure serial port: " ++ "") ∧
    Provider.kind normalTestProvider = Provider.kind normalTestProvider := by
  have hg : Provider.generate normalTestProvider (1/4) (CurlResult.transportError "t") [] 0 =
      Except.ok (1/4, normalTestProvider, []) := by
    simp only [normalTestProvider, Provider.generate, NormalRNGProvider.generate,
      NormalRNGProvider.mk', RNGBase.mk', RNGBase.log_value, envEmpty]
    norm_num
  exact ⟨claim2_factory_fallback.1 envEmpty wNone true 3 "quantum"
      (by decide) (by decide) (by decide),
    claim2_factory_fallback.2.1 envEmpty wNone true 3 rfl,
    claim2_factory_fallback.2.2.1 envEmpty wNone true 3 rfl rfl,
    claim2_factory_fallback.2.2.2 normalTestProvider (1/4) (CurlResult.transportError "t")
      [] 0 (1/4) normalTestProvider [] hg⟩

/-- Counterexample for C3: the code never inspects the HTTP status line.  A
delivered `404` response whose body is valid JSON with a numeric `random`
field makes `generate()` return a value instead of raising. -/
theorem claim3_counterexample :
    apiTestProvider.generate
        (CurlResult.response 404 (HttpBody.obj [("random", JsonValue.num (1/2))])) 5 =
      Except.ok (1/2, apiTestProvider) := by
  simp only [apiTestProvider, ExternalAPIRNGProvider.generate, ExternalAPIRNGProvider.mk',
    RNGBase.mk', RNGBase.log_value, lookupRandom, envEmpty, List.lookup]
  norm_num

/-- Claim C3 (amended): for the remote HTTP backend, `generate()` raises a
protocol error — returning no substituted value — whenever the transport
fails, the body is not valid JSON, or the parsed JSON has no numeric
`random` field; the HTTP status code of a delivered response is never
inspected (responses with identical bodies are processed identically
regardless of status). -/
theorem claim3_http_protocol_errors :
    (∀ (p : ExternalAPIRNGProvider) (status : Nat) (now : Nat), p.curl_ok = true →
        p.generate (CurlResult.response status HttpBody.invalid) now =
          Except.error "RNG API error: json parse error")
  ∧ (∀ (p : ExternalAPIRNGProvider) (status : Nat) (fields : List (String × JsonValue))
        (now : Nat), p.curl_ok = true → lookupRandom fields = none →
        p.generate (CurlResult.response status (HttpBody.obj fields)) now =
          Except.error "RNG API error: API response missing random field")
  ∧ (∀ (p : ExternalAPIRNGProvider) (s1 s2 : Nat) (body : HttpBody) (now : Nat),
        p.generate (CurlResult.response s1 body) now =
          p.generate (CurlResult.response s2 body) now)
  ∧ (∀ (p : ExternalAPIRNGProvider) (msg : String) (now : Nat), p.curl_ok = true →
        p.generate (CurlResult.transportError msg) now =
          Except.error ("curl_easy_perform() failed: " ++ msg)) := by
  refine ⟨?_, ?_, ?_, ?_⟩
  · intro p st now hc
    simp [ExternalAPIRNGProvider.generate, hc]
  · intro p st fields now hc hlr
    simp [ExternalAPIRNGProvider.generate, hc, hlr]
  · intro p s1 s2 body now
    by_cases hc : p.curl_ok
    · rcases body with _ | fields
      · simp [ExternalAPIRNGProvider.generate, hc]
      · rcases hlr : lookupRandom fields with _ | r <;>
          simp [ExternalAPIRNGProvider.generate, hc, hlr]
    · simp [ExternalAPIRNGProvider.generate, hc]
  · intro p msg now hc
    simp [ExternalAPIRNGProvider.generate, hc]

/-- Witness for C3 (amended): the four conjuncts at concrete inputs on the
configured test provider — an invalid body, a JSON body whose `random`
field is non-numeric, a status-200 vs status-404 pair with equal bodies,
and a transport failure. -/
theorem claim3_witness :
    apiTestProvider.generate (CurlResult.response 500 HttpBody.invalid) 0 =
      Except.error "RNG API error: json parse error" ∧
    apiTestProvider.generate
        (CurlResult.response 200 (HttpBody.obj [("random", JsonValue.notNum)])) 1 =
      Except.error "RNG API error: API response missing random field" ∧
    apiTestProvider.generate (CurlResult.response 200 HttpBody.invalid) 2 =
      apiTestProvider.generate (CurlResult.response 404 HttpBody.invalid) 2 ∧
    apiTestProvider.generate (CurlResult.transportError "Timeout was reached") 3 =
      Except.error ("curl_easy_perform() failed: " ++ "Timeout was reached") :=
  ⟨claim3_http_protocol_errors.1 apiTestProvider 500 0 rfl,
   claim3_http_protocol_errors.2.1 apiTestProvider 200 [("random", JsonValue.notNum)] 1
     rfl rfl,
   claim3_http_protocol_errors.2.2.1 apiTestProvider 200 404 HttpBody.invalid 2,
   claim3_http_protocol_errors.2.2.2 apiTestProvider "Timeout was reached" 3 rfl⟩

/-- Claim C9: on the fixed-enumeration (Linux termios) path, a baud rate
outside `{9600, 115200, 921600}` makes construction fail deterministically
— `generate()` is never reached — and a successful construction keeps the
requested rate unchanged, which is therefore one of the supported rates
(no silent rounding). -/
theorem claim9_unsupported_baud :
    (∀ (env : Env) (w : SerialWorld) (port : String) (baudrate : Int),
        baudrate ≠ 9600 → baudrate ≠ 115200 → baudrate ≠ 921600 →
        SerialFPGARNGProvider.mk' env w port baudrate =
          Except.error ("Failed to open or configure serial port: " ++
            (if port = "" then auto_detect_port w else port)))
  ∧ (∀ (env : Env) (w : SerialWorld) (port : String) (baudrate : Int)
        (p : SerialFPGARNGProvider),
        SerialFPGARNGProvider.mk' env w port baudrate = Except.ok p →
        p.baudrate = baudrate ∧
          (baudrate = 9600 ∨ baudrate = 115200 ∨ baudrate = 921600)) := by
  constructor
  · intro env w port b h1 h2 h3
    have hop : open_serial_port w (if port = "" then auto_detect_port w else port) b
        = false := by
      simp [open_serial_port, h1, h2, h3]
    simp [SerialFPGARNGProvider.mk', hop]
  · intro env w port b p h
    simp only [SerialFPGARNGProvider.mk'] at h
    set pn := (if port = "" then auto_detect_port w else port) with hpn
    cases hopb : open_serial_port w pn b with
    | false => simp [hopb] at h
    | true =>
        have hb : b = 9600 ∨ b = 115200 ∨ b = 921600 := by
          simp [open_serial_port] at hopb
          tauto
        by_cases hpn0 : pn = ""
        · simp [hpn0, hopb] at h
        · simp [hpn0, hopb] at h
          subst h
          exact ⟨rfl, hb⟩

/-- Witness for C9: constructing at 19200 baud on a machine with no device
path configured fails; constructing at 921600 on the machine with the
auto-detectable device succeeds with the rate unchanged. -/
theorem claim9_witness :
    SerialFPGARNGProvider.mk' envEmpty wNone "" 19200 =
      Except.error ("Failed to open or configure serial port: " ++
        (if ("" : String) = "" then auto_detect_port wNone else "")) ∧
    serialTestProvider.baudrate = 921600 ∧
      ((921600 : Int) = 9600 ∨ (921600 : Int) = 115200 ∨ (921600 : Int) = 921600) :=
  ⟨claim9_unsupported_baud.1 envEmpty wNone "" 19200 (by decide) (by decide) (by decide),
   claim9_unsupported_baud.2 envEmpty wDev "" 921600 serialTestProvider rfl⟩

/-- Counterexample for C5: immediately after `set_output_file` with logging
enabled (zero `generate()` calls), the file already holds two leading
header comment lines, not exactly one. -/
theorem claim5_counterexample :
    (uniformDbgProvider.set_output_file "rng_values.csv").base.output_file =
      some [LogLine.header "# RNG values from uniform provider",
            LogLine.header "# Format: timestamp_ms,random_value"] := rfl

/-- Claim C5 (amended): with logging enabled, after `k` successful
`generate()` calls the log file contains exactly two leading header comment
lines followed by exactly `k` record lines `timestamp_ms,value`, the i-th
record carrying the clock read of the i-th call — so the timestamps are
non-decreasing whenever the successive clock reads are. -/
theorem claim5_log_shape (p0 : Provider) (hdbg : p0.base.debug_enabled = true)
    (fname : String) (hn : fname ≠ "") (cs : List CallInput) (p' : Provider)
    (hrun : runCalls (p0.set_output_file fname) cs = some p') :
    ∃ recs : List (Nat × ℚ),
      p'.base.output_file = some (headerLines p0.base.name ++
        recs.map (fun r => LogLine.record r.1 r.2)) ∧
      recs.length = cs.length ∧
      recs.map Prod.fst = cs.map CallInput.now ∧
      (List.Chain' (· ≤ ·) (cs.map CallInput.now) →
        List.Chain' (· ≤ ·) (recs.map Prod.fst)) := by
  have hopen : (p0.set_output_file fname).base.output_file =
      some (headerLines p0.base.name) := by
    rw [Provider.set_output_file, base_setBase]
    simp [RNGBase.set_output_file, hn, hdbg, headerLines]
  obtain ⟨recs, hA, hB, hC⟩ := runCalls_log cs _ _ p' hopen hrun
  exact ⟨recs, hA, hC, hB, fun hm => hB ▸ hm⟩

/-- Witness for C5 (amended): the debug-enabled uniform provider, a
nonempty filename, and the empty (zero-call) run. -/
theorem claim5_witness :
    ∃ recs : List (Nat × ℚ),
      (uniformDbgProvider.set_output_file "rng_values.csv").base.output_file =
        some (headerLines uniformDbgProvider.base.name ++
          recs.map (fun r => LogLine.record r.1 r.2)) ∧
      recs.length = ([] : List CallInput).length ∧
      recs.map Prod.fst = ([] : List CallInput).map CallInput.now ∧
      (List.Chain' (· ≤ ·) (([] : List CallInput).map CallInput.now) →
        List.Chain' (· ≤ ·) (recs.map Prod.fst)) :=
  claim5_log_shape uniformDbgProvider rfl "rng_values.csv" (by decide) [] _ rfl

/-- Counterexample for C7: the serial backend, fed the reachable byte frame
`FF FF FF FF`, returns exactly 1 — the value 1 is attained, so the
closed-open interval `[0,1)` is wrong. -/
theorem claim7_counterexample :
    SerialFPGARNGProvider.mk' envEmpty wDev "" 921600 = Except.ok serialTestProvider ∧
    (SerialFPGARNGProvider.generate serialTestProvider [255, 255, 255, 255] 0).map
      (fun r => r.1) = Except.ok 1 := by
  constructor
  · rfl
  · have hff : combineLE 255 255 255 255 = 4294967295 := by decide
    simp [SerialFPGARNGProvider.generate, read_u32, read_byte, Bind.bind, Except.bind,
      Pure.pure, Except.pure, Except.map, hff]

/-- Claim C7 (amended): every successfully generated value lies in the
closed interval `[0,1]`; the uniform backend stays strictly below 1, but
the serial backend attains exactly 1 (on the all-`0xFF` frame), so `[0,1)`
does not hold for every backend. -/
theorem claim7_unit_interval :
    (∀ (p : Provider) (raw : ℚ) (res : CurlResult) (stream : List Nat) (now : Nat)
        (v : ℚ) (p' : Provider) (rest : List Nat), (∀ b ∈ stream, b < 256) →
        Provider.generate p raw res stream now = Except.ok (v, p', rest) →
        0 ≤ v ∧ v ≤ 1)
  ∧ (∀ (q : UniformRNGProvider) (now : Nat), (q.generate now).1 < 1)
  ∧ (SerialFPGARNGProvider.generate serialTestProvider [255, 255, 255, 255] 11).map
      (fun r => r.1) = Except.ok 1 := by
  refine ⟨fun p raw res stream now v p' rest hb h =>
    generate_ok_bounds p raw res stream now v p' rest hb h, fun q now => ?_, ?_⟩
  · exact generate_canonical_lt_one q.rng
  · have hff : combineLE 255 255 255 255 = 4294967295 := by decide
    simp [SerialFPGARNGProvider.generate, read_u32, read_byte, Bind.bind, Except.bind,
      Pure.pure, Except.pure, Except.map, hff]

/-- Witness for C7 (amended): a concrete successful normal-backend call
whose clamped value is 1 (raw draw 9/8), in `[0,1]`; and the
strictly-below-1 conjunct at a concrete uniform provider. -/
theorem claim7_witness :
    Provider.generate normalTestProvider (9/8) (CurlResult.transportError "w") [] 2 =
      Except.ok (1, normalTestProvider, []) ∧
    (0 ≤ (1 : ℚ) ∧ (1 : ℚ) ≤ 1) ∧
    ((UniformRNGProvider.mk' envEmpty 1).generate 0).1 < 1 := by
  have hg : Provider.generate normalTestProvider (9/8) (CurlResult.transportError "w") [] 2 =
      Except.ok (1, normalTestProvider, []) := by
    simp only [normalTestProvider, Provider.generate, NormalRNGProvider.generate,
      NormalRNGProvider.mk', RNGBase.mk', RNGBase.log_value, envEmpty]
    norm_num
  exact ⟨hg, claim7_unit_interval.1 normalTestProvider (9/8) (CurlResult.transportError "w")
      [] 2 1 normalTestProvider [] (by simp) hg,
    claim7_unit_interval.2.1 (UniformRNGProvider.mk' envEmpty 1) 0⟩

/-- Claim C8: when the remote endpoint delivers a JSON body whose `random`
field holds a number `r`, `generate()` returns the clamp of `r` into
`[0,1]` — exactly `0.73` for `r = 0.73` — and logs that same value. -/
theorem claim8_remote_success (p : ExternalAPIRNGProvider) (status : Nat)
    (fields : List (String × JsonValue)) (r : ℚ) (now : Nat)
    (hc : p.curl_ok = true) (hf : lookupRandom fields = some r) :
    p.generate (CurlResult.response status (HttpBody.obj fields)) now =
      Except.ok (max 0 (min 1 r), { p with base := p.base.log_value now (max 0 (min 1 r)) })
    ∧ (r = 73 / 100 → max 0 (min 1 r) = 73 / 100) := by
  constructor
  · simp [ExternalAPIRNGProvider.generate, hc, hf]
  · rintro rfl
    norm_num [min_def, max_def]

/-- Witness for C8: the configured provider receiving
`{"random": 0.73}` with status 200. -/
theorem claim8_witness :
    apiTestProvider.generate
        (CurlResult.response 200 (HttpBody.obj [("random", JsonValue.num (73/100))])) 4 =
      Except.ok (max 0 (min 1 (73/100 : ℚ)), { apiTestProvider with base := apiTestProvider.base.log_value 4 (max 0 (min 1 (73/100 : ℚ))) })
    ∧ ((73/100 : ℚ) = 73 / 100 → max 0 (min 1 (73/100 : ℚ)) = 73 / 100) :=
  claim8_remote_success apiTestProvider 200 [("random", JsonValue.num (73/100))]
    (73/100) 4 rfl rfl

/-- Claim C10: logging never influences generated output — the value
sequence of any provider is unchanged under any replacement of its
base-class (logging) state; and unless `LLAMA_RNG_DEBUG` equals exactly
`"1"` at construction, `set_output_file` opens no file whatever filename is
passed, and with no open file `log_value` writes nothing. -/
theorem claim10_logging_noninterference :
    (∀ (p : Provider) (b : RNGBase) (cs : List CallInput),
        runValues (p.setBase b) cs = runValues p cs)
  ∧ (∀ (env : Env) (name fname : String), env.llama_rng_debug ≠ some "1" →
        ((RNGBase.mk' env name).set_output_file fname).output_file = none)
  ∧ (∀ (b : RNGBase) (now : Nat) (v : ℚ), b.output_file = none →
        b.log_value now v = b) := by
  refine ⟨fun p b cs => runValues_setBase cs p b, ?_, ?_⟩
  · intro env name fname h
    simp [RNGBase.mk', RNGBase.set_output_file, h]
  · intro b now v h
    simp [RNGBase.log_value, h]

/-- Witness for C10: the three conjuncts at concrete inputs — a normal
provider with its logging state replaced, an environment with
`LLAMA_RNG_DEBUG` unset, and a closed-file `log_value` call. -/
theorem claim10_witness :
    runValues (normalTestProvider.setBase blankBase)
        [⟨1/2, CurlResult.transportError "e", [], 0⟩] =
      runValues normalTestProvider [⟨1/2, CurlResult.transportError "e", [], 0⟩] ∧
    ((RNGBase.mk' envEmpty "uniform").set_output_file "rng_values.csv").output_file = none ∧
    blankBase.log_value 0 (1/2) = blankBase :=
  ⟨claim10_logging_noninterference.1 normalTestProvider blankBase
      [⟨1/2, CurlResult.transportError "e", [], 0⟩],
   claim10_logging_noninterference.2.1 envEmpty "uniform" "rng_values.csv" (by simp [envEmpty]),
   claim10_logging_noninterference.2.2 blankBase 0 (1/2) rfl⟩
